import Mathlib

/-!
Shallow embedding of the employment-statistics dashboard pipeline
(`pythonafdb.py`): schema normalization (numeric coercion of the four
indicator columns), the two-tier continent classifier, the cache write,
and the query/filter layer, together with proofs of the spec's claims.
-/

set_option maxHeartbeats 1000000

/-- A raw spreadsheet cell in an indicator column: a number, an arbitrary
string, or an empty cell (pandas NaN). -/
inductive Cell where
  | num (v : Int)
  | str (s : String)
  | empty
deriving DecidableEq

/-- Value of a string of decimal digits. -/
def digitsToNat (cs : List Char) : Nat :=
  cs.foldl (fun n c => 10 * n + (c.toNat - 48)) 0

/-- Executable model of parsing a cell's text as a number: an optional
leading minus sign followed by at least one decimal digit; anything else
fails with an absent result. -/
def parseInt (s : String) : Option Int :=
  match s.data with
  | [] => none
  | c :: cs =>
    if c = '-' then
      if cs ≠ [] ∧ cs.all Char.isDigit then some (-(digitsToNat cs : Int))
      else none
    else
      if (c :: cs).all Char.isDigit then some ((digitsToNat (c :: cs) : Int))
      else none

/-- Model of `pd.to_numeric(_, errors='coerce')` on one cell: numbers pass
through, strings are parsed if possible, anything unparseable or empty
becomes an absent value instead of raising. -/
def toNumeric : Cell → Option Int
  | Cell.num v => some v
  | Cell.str s => parseInt s
  | Cell.empty => none

/-- One raw row after the column rename, before numeric coercion and before
continent classification.  String-valued columns may be absent (pandas NaN). -/
structure RawRow where
  country : Option String
  countryCode : Option String
  incomeLevel : Option String
  year : Option Int
  region : Option String
  employmentRate : Cell
  unemploymentRate : Cell
  laborForceParticipationRate : Cell
  youthUnemploymentRate : Cell
deriving DecidableEq

/-- One row of the NormalizedTable: the four indicator columns are coerced
(`Option Int`, absent on coercion failure) and a continent has been
assigned (always a `String`: line 81 fills any missing value). -/
structure Row where
  country : Option String
  countryCode : Option String
  incomeLevel : Option String
  year : Option Int
  region : Option String
  employmentRate : Option Int
  unemploymentRate : Option Int
  laborForceParticipationRate : Option Int
  youthUnemploymentRate : Option Int
  continent : String
deriving DecidableEq

/-- `continent_mapping` (RegionCodeMap) from lines 33-36, in source order. -/
def continent_mapping : List (String × String) :=
  [("AFR", "Africa"), ("ECS", "Europe & Central Asia"),
   ("LCN", "Latin America & Caribbean"), ("MEA", "Middle East & North Africa"),
   ("SAS", "South Asia"), ("EAS", "East Asia & Pacific"), ("OCE", "Oceania")]

/-- `country_to_continent` (CountryFallbackMap) from lines 40-75, in source
order, including the duplicate key "New Zealand" (once under East Asia &
Pacific, once under Oceania). -/
def country_to_continent : List (String × String) :=
  [("Mali", "Africa"), ("Burkina Faso", "Africa"), ("Nigeria", "Africa"),
   ("Ghana", "Africa"), ("Kenya", "Africa"), ("Ethiopia", "Africa"),
   ("Tanzania", "Africa"), ("South Africa", "Africa"), ("Egypt", "Africa"),
   ("Algeria", "Africa"), ("Morocco", "Africa"), ("Uganda", "Africa"),
   ("Rwanda", "Africa"), ("Senegal", "Africa"), ("Zambia", "Africa"),
   ("Cameroon", "Africa"), ("Niger", "Africa"), ("Chad", "Africa"),
   ("Sudan", "Africa"), ("Tunisia", "Africa"),
   ("Democratic Republic of the Congo", "Africa"),
   ("Republic of the Congo", "Africa"), ("Angola", "Africa"),
   ("United States", "North America"), ("Canada", "North America"),
   ("Mexico", "North America"),
   ("Brazil", "Latin America & Caribbean"),
   ("Argentina", "Latin America & Caribbean"),
   ("Colombia", "Latin America & Caribbean"),
   ("Chile", "Latin America & Caribbean"),
   ("Peru", "Latin America & Caribbean"),
   ("Venezuela", "Latin America & Caribbean"),
   ("France", "Europe & Central Asia"), ("Germany", "Europe & Central Asia"),
   ("United Kingdom", "Europe & Central Asia"),
   ("Russia", "Europe & Central Asia"), ("Spain", "Europe & Central Asia"),
   ("Italy", "Europe & Central Asia"), ("Ukraine", "Europe & Central Asia"),
   ("Netherlands", "Europe & Central Asia"),
   ("Poland", "Europe & Central Asia"),
   ("China", "East Asia & Pacific"), ("Japan", "East Asia & Pacific"),
   ("South Korea", "East Asia & Pacific"),
   ("Philippines", "East Asia & Pacific"),
   ("Indonesia", "East Asia & Pacific"), ("Thailand", "East Asia & Pacific"),
   ("Vietnam", "East Asia & Pacific"), ("Malaysia", "East Asia & Pacific"),
   ("New Zealand", "East Asia & Pacific"),
   ("India", "South Asia"), ("Pakistan", "South Asia"),
   ("Bangladesh", "South Asia"), ("Sri Lanka", "South Asia"),
   ("Nepal", "South Asia"), ("Bhutan", "South Asia"),
   ("Saudi Arabia", "Middle East & North Africa"),
   ("United Arab Emirates", "Middle East & North Africa"),
   ("Qatar", "Middle East & North Africa"),
   ("Kuwait", "Middle East & North Africa"),
   ("Iran", "Middle East & North Africa"),
   ("Australia", "Oceania"), ("New Zealand", "Oceania"),
   ("Fiji", "Oceania"), ("Papua New Guinea", "Oceania")]

/-- Lookup in a Python dict built from a literal association list: building
the dict inserts the pairs in order, so a later duplicate key overrides an
earlier one; the lookup therefore returns the LAST binding of the key. -/
def pyGet (d : List (String × String)) (k : String) : Option String :=
  (d.reverse.find? (fun p => p.1 == k)).map (fun p => p.2)

/-- The continent classifier of lines 37, 78 and 81, as a pure function of
(region code, country name).  Step 1 (line 37): map the region code through
`continent_mapping` (absent region or unknown code gives an absent result).
Step 2 (line 78): `country_to_continent.get(row['Country'], row['Continent'])`
— the country-name lookup runs unconditionally and, when it hits, overrides
the step-1 result; otherwise the step-1 result is kept (an absent country
name, pandas NaN, is not a dict key so the default is returned).
Step 3 (line 81): `fillna("Unknown")`. -/
def classifyContinent (region country : Option String) : String :=
  let fromRegion : Option String :=
    region.bind (fun rc => pyGet continent_mapping rc)
  let afterFallback : Option String :=
    match country with
    | some name =>
      match pyGet country_to_continent name with
      | some c => some c
      | none => fromRegion
    | none => fromRegion
  afterFallback.getD "Unknown"

/-- Normalization of one row: coerce the four indicator cells with
`toNumeric` (line 30, cellwise and independent) and assign the continent
(lines 37/78/81); all other columns pass through unchanged. -/
def normalizeRow (rr : RawRow) : Row :=
  { country := rr.country
    countryCode := rr.countryCode
    incomeLevel := rr.incomeLevel
    year := rr.year
    region := rr.region
    employmentRate := toNumeric rr.employmentRate
    unemploymentRate := toNumeric rr.unemploymentRate
    laborForceParticipationRate := toNumeric rr.laborForceParticipationRate
    youthUnemploymentRate := toNumeric rr.youthUnemploymentRate
    continent := classifyContinent rr.region rr.country }

/-- `load_data` restricted to its in-scope part: the renamed raw rows are
coerced and classified rowwise, preserving row order and count. -/
def load_data (raw : List RawRow) : List Row :=
  raw.map normalizeRow

/-- `load_data` including the cache write of lines 84-86.  The write
(`df.to_sql` on the SQLite connection) is modelled as a fallible function;
the source wraps it in no try/except, so a failing write raises out of
`load_data` and the normalized table is not returned. -/
def load_data_with_cache (raw : List RawRow)
    (cacheWrite : List Row → Except String Unit) : Except String (List Row) :=
  match cacheWrite (load_data raw) with
  | Except.error e => Except.error e
  | Except.ok _ => Except.ok (load_data raw)

/-- The display-mode radio button of line 100. -/
inductive DisplayType where
  | countries
  | continents
deriving DecidableEq

/-- `sorted(df["Year"].dropna().unique(), reverse=True)` (line 96): the
distinct years present in the table, in descending order. -/
def available_years (df : List Row) : List Int :=
  ((df.filterMap (fun r => r.year)).dedup).insertionSort (fun a b => b ≤ a)

/-- The query layer (lines 102-115): `filtered_df` keeps the rows whose
mode-relevant field is in the selected set and whose year equals the
selected year.  Pandas `isin` on a NaN country is false (the selection
lists hold no NaN), and `df["Year"] == selected_year` is false on a NaN
year, which the `Option` equalities reproduce. -/
def filtered_df (df : List Row) (mode : DisplayType) (selected : List String)
    (selectedYear : Int) : List Row :=
  match mode with
  | DisplayType.countries =>
    df.filter (fun r =>
      decide (r.country ∈ selected.map some ∧ r.year = some selectedYear))
  | DisplayType.continents =>
    df.filter (fun r =>
      decide (r.continent ∈ selected ∧ r.year = some selectedYear))

/-! ## Helper lemmas -/

/-- A successful `pyGet` returns one of the dict's values. -/
theorem pyGet_mem_values (d : List (String × String)) (k v : String)
    (h : pyGet d k = some v) : v ∈ d.map Prod.snd := by
  unfold pyGet at h
  cases hf : d.reverse.find? (fun p => p.1 == k) with
  | none => rw [hf] at h; simp at h
  | some p =>
    rw [hf] at h
    simp at h
    have hp : p ∈ d.reverse := List.mem_of_find?_eq_some hf
    rw [List.mem_reverse] at hp
    rw [← h]
    exact List.mem_map_of_mem Prod.snd hp

/-- Every value of the region-code map is a nonempty string. -/
theorem continent_mapping_values_nonempty :
    ∀ v ∈ continent_mapping.map Prod.snd, v ≠ "" := by decide

/-- Every value of the country fallback map is a nonempty string. -/
theorem country_to_continent_values_nonempty :
    ∀ v ∈ country_to_continent.map Prod.snd, v ≠ "" := by decide

/-! ## Claim theorems -/

/-- C1: for every row whose country name is a key of the fallback map
`country_to_continent`, the classifier assigns the fallback map's value for
that country, whatever the region code is (even one that `continent_mapping`
maps to a different continent). -/
theorem fallback_overrides_region (region : Option String) (name cont : String)
    (h : pyGet country_to_continent name = some cont) :
    classifyContinent region (some name) = cont := by
  simp only [classifyContinent, h]
  rfl

/-- C1 witness: region code "AFR" (which maps to "Africa") together with
country "United States" yields "North America". -/
theorem fallback_overrides_region_witness :
    pyGet continent_mapping "AFR" = some "Africa" ∧
    pyGet country_to_continent "United States" = some "North America" ∧
    classifyContinent (some "AFR") (some "United States") = "North America" :=
  ⟨by decide, by decide,
   fallback_overrides_region (some "AFR") "United States" "North America"
     (by decide)⟩

/-- C2 counterexample: the fallback map IS consulted for a row whose region
code is a key of `continent_mapping`, and it changes the continent already
derived from the region code: region "AFR" derives "Africa", yet country
"United States" makes the classifier assign "North America". -/
theorem fallback_changes_region_result_cex :
    pyGet continent_mapping "AFR" = some "Africa" ∧
    classifyContinent (some "AFR") (some "United States") = "North America" ∧
    classifyContinent (some "AFR") (some "United States") ≠ "Africa" := by
  decide

/-- C2 amended: the country-name fallback lookup runs for every row, but it
leaves the region-code result unchanged exactly when the country name is
not a key of the fallback map; in that case the assigned continent is the
region-code derivation (filled with "Unknown" when that is absent). -/
theorem fallback_noop_without_key (region country : Option String)
    (h : country.bind (fun n => pyGet country_to_continent n) = none) :
    classifyContinent region country =
      (region.bind (fun rc => pyGet continent_mapping rc)).getD "Unknown" := by
  cases country with
  | none => rfl
  | some name =>
    simp only [Option.some_bind] at h
    simp only [classifyContinent, h]

/-- C2 amended witness: "Iceland" is not a fallback-map key, so with region
code "AFR" the region-code result "Africa" stands. -/
theorem fallback_noop_without_key_witness :
    (some "Iceland" : Option String).bind
      (fun n => pyGet country_to_continent n) = none ∧
    classifyContinent (some "AFR") (some "Iceland") =
      ((some "AFR" : Option String).bind
        (fun rc => pyGet continent_mapping rc)).getD "Unknown" :=
  ⟨by decide, fallback_noop_without_key (some "AFR") (some "Iceland")
    (by decide)⟩

/-- C3: when the country name is not a key of the fallback map and the
region code is a key of `continent_mapping`, the assigned continent is the
region-code mapping's value. -/
theorem region_code_decides (country : Option String) (rc cont : String)
    (h1 : country.bind (fun n => pyGet country_to_continent n) = none)
    (h2 : pyGet continent_mapping rc = some cont) :
    classifyContinent (some rc) country = cont := by
  cases country with
  | none => simp only [classifyContinent, Option.some_bind, h2]; rfl
  | some name =>
    simp only [Option.some_bind] at h1
    simp only [classifyContinent, h1, Option.some_bind, h2]
    rfl

/-- C3 witness: country "Iceland" (not a fallback key) with region code
"SAS" gets "South Asia". -/
theorem region_code_decides_witness :
    (some "Iceland" : Option String).bind
      (fun n => pyGet country_to_continent n) = none ∧
    pyGet continent_mapping "SAS" = some "South Asia" ∧
    classifyContinent (some "SAS") (some "Iceland") = "South Asia" :=
  ⟨by decide, by decide,
   region_code_decides (some "Iceland") "SAS" "South Asia"
     (by decide) (by decide)⟩

/-- C4: when neither the country name is a fallback-map key nor the region
code is a `continent_mapping` key, the assigned continent is exactly the
sentinel "Unknown". -/
theorem unknown_when_no_match (region country : Option String)
    (h1 : country.bind (fun n => pyGet country_to_continent n) = none)
    (h2 : region.bind (fun rc => pyGet continent_mapping rc) = none) :
    classifyContinent region country = "Unknown" := by
  cases country with
  | none => simp only [classifyContinent, h2]; rfl
  | some name =>
    simp only [Option.some_bind] at h1
    simp only [classifyContinent, h1, h2]
    rfl

/-- C4 witness: country "Atlantis" and region code "XYZ" match nothing and
give "Unknown". -/
theorem unknown_when_no_match_witness :
    (some "Atlantis" : Option String).bind
      (fun n => pyGet country_to_continent n) = none ∧
    (some "XYZ" : Option String).bind
      (fun rc => pyGet continent_mapping rc) = none ∧
    classifyContinent (some "XYZ") (some "Atlantis") = "Unknown" :=
  ⟨by decide, by decide,
   unknown_when_no_match (some "XYZ") (some "Atlantis") (by decide) (by decide)⟩

/-- C9: the literal `country_to_continent` binds "New Zealand" twice and the
later binding wins (Python dict semantics), so every row with country name
"New Zealand" is classified "Oceania", not "East Asia & Pacific", whatever
its region code. -/
theorem new_zealand_is_oceania (region : Option String) :
    pyGet country_to_continent "New Zealand" = some "Oceania" ∧
    classifyContinent region (some "New Zealand") = "Oceania" ∧
    classifyContinent region (some "New Zealand") ≠ "East Asia & Pacific" := by
  have h : pyGet country_to_continent "New Zealand" = some "Oceania" := by
    decide
  refine ⟨h, ?_, ?_⟩
  · simp only [classifyContinent, h]
    rfl
  · simp only [classifyContinent, h]
    decide

/-- The classifier never returns the empty string: its result is a value of
one of the two maps or the sentinel "Unknown". -/
theorem classifyContinent_ne_empty (region country : Option String) :
    classifyContinent region country ≠ "" := by
  have hreg : region.bind (fun rc => pyGet continent_mapping rc) = none ∨
      ∃ v, region.bind (fun rc => pyGet continent_mapping rc) = some v ∧
        v ∈ continent_mapping.map Prod.snd := by
    cases region with
    | none => exact Or.inl rfl
    | some rc =>
      cases hp : pyGet continent_mapping rc with
      | none => exact Or.inl (by simp [hp])
      | some v =>
        exact Or.inr ⟨v, by simp [hp], pyGet_mem_values _ _ _ hp⟩
  cases country with
  | none =>
    rcases hreg with h | ⟨v, hv, hmem⟩
    · simp only [classifyContinent, h]
      decide
    · simp only [classifyContinent, hv, Option.getD_some]
      exact continent_mapping_values_nonempty v hmem
  | some name =>
    cases hf : pyGet country_to_continent name with
    | none =>
      rcases hreg with h | ⟨v, hv, hmem⟩
      · simp only [classifyContinent, hf, h]
        decide
      · simp only [classifyContinent, hf, hv, Option.getD_some]
        exact continent_mapping_values_nonempty v hmem
    | some c =>
      simp only [classifyContinent, hf, Option.getD_some]
      exact country_to_continent_values_nonempty c (pyGet_mem_values _ _ _ hf)

/-- C5: every row of the NormalizedTable produced by `load_data` carries a
non-empty continent (non-absence holds by construction: the continent
column is a total `String`, filled on line 81 even for rows with absent
country name and absent region code). -/
theorem continent_total (raw : List RawRow) (r : Row)
    (h : r ∈ load_data raw) : r.continent ≠ "" := by
  rcases List.mem_map.mp h with ⟨rr, _, rfl⟩
  exact classifyContinent_ne_empty rr.region rr.country

/-- A raw row with every column absent, for concrete witnesses. -/
def sampleRaw : RawRow :=
  { country := none, countryCode := none, incomeLevel := none, year := none,
    region := none, employmentRate := Cell.empty,
    unemploymentRate := Cell.empty, laborForceParticipationRate := Cell.empty,
    youthUnemploymentRate := Cell.empty }

/-- A normalized Kenya 2020 row, for concrete witnesses. -/
def sampleRow : Row :=
  { country := some "Kenya", countryCode := some "KEN", incomeLevel := none,
    year := some 2020, region := some "AFR", employmentRate := some 70,
    unemploymentRate := some 5, laborForceParticipationRate := some 74,
    youthUnemploymentRate := some 13, continent := "Africa" }

/-- C5 witness: the all-absent raw row is classified and its continent
("Unknown") is non-empty. -/
theorem continent_total_witness :
    normalizeRow sampleRaw ∈ load_data [sampleRaw] ∧
    (normalizeRow sampleRaw).continent ≠ "" :=
  ⟨by decide, continent_total [sampleRaw] (normalizeRow sampleRaw) (by decide)⟩

/-- C6: in by-country mode with a year constraint, `filtered_df` returns
exactly the rows whose country is one of the selected names and whose year
equals the constraint, as a sublist of the table (original relative order),
and the result is the empty list — not an error — when nothing matches. -/
theorem filtered_countries_correct (df : List Row) (sel : List String)
    (y : Int) :
    (∀ r, r ∈ filtered_df df DisplayType.countries sel y ↔
      r ∈ df ∧ r.country ∈ sel.map some ∧ r.year = some y) ∧
    List.Sublist (filtered_df df DisplayType.countries sel y) df ∧
    ((∀ r ∈ df, ¬(r.country ∈ sel.map some ∧ r.year = some y)) →
      filtered_df df DisplayType.countries sel y = []) := by
  refine ⟨?_, ?_, ?_⟩
  · intro r
    simp [filtered_df, List.mem_filter, and_assoc]
  · exact List.filter_sublist df
  · intro h
    simp only [filtered_df]
    rw [List.filter_eq_nil_iff]
    intro r hr
    simpa using h r hr

/-- C6 witness: with a single Kenya-2020 row, asking for Kenya in a year
with no data returns the empty list. -/
theorem filtered_countries_correct_witness :
    filtered_df [sampleRow] DisplayType.countries ["Kenya"] 3000 = [] :=
  (filtered_countries_correct [sampleRow] ["Kenya"] 3000).2.2 (by decide)

/-- C7: numeric coercion never aborts and is local to each cell.  The
pipeline keeps every row (no abort on a bad cell); each output row depends
only on its own raw row; within a row, each coerced indicator field is a
function of exactly its own raw cell (so a bad cell leaves every other
cell's result unchanged) and the non-indicator columns pass through; and a
cell holding a non-numeric string coerces to the absent value. -/
theorem bad_cell_isolated :
    (∀ raw : List RawRow, (load_data raw).length = raw.length) ∧
    (∀ (raw : List RawRow) (i : Nat) (h1 : i < raw.length)
      (h2 : i < (load_data raw).length),
      (load_data raw).get ⟨i, h2⟩ = normalizeRow (raw.get ⟨i, h1⟩)) ∧
    (∀ rr : RawRow,
      (normalizeRow rr).employmentRate = toNumeric rr.employmentRate ∧
      (normalizeRow rr).unemploymentRate = toNumeric rr.unemploymentRate ∧
      (normalizeRow rr).laborForceParticipationRate =
        toNumeric rr.laborForceParticipationRate ∧
      (normalizeRow rr).youthUnemploymentRate =
        toNumeric rr.youthUnemploymentRate ∧
      (normalizeRow rr).country = rr.country ∧
      (normalizeRow rr).year = rr.year ∧
      (normalizeRow rr).continent = classifyContinent rr.region rr.country) ∧
    (∀ s : String, parseInt s = none → toNumeric (Cell.str s) = none) := by
  refine ⟨?_, ?_, ?_, ?_⟩
  · intro raw
    simp [load_data]
  · intro raw i h1 h2
    simp [load_data]
  · intro rr
    exact ⟨rfl, rfl, rfl, rfl, rfl, rfl, rfl⟩
  · intro s hs
    simpa [toNumeric] using hs

/-- C7 witness: the non-numeric cell "abc" coerces to an absent value, and
the one-row table maps rowwise. -/
theorem bad_cell_isolated_witness :
    parseInt "abc" = none ∧ toNumeric (Cell.str "abc") = none ∧
    (load_data [sampleRaw]).get ⟨0, by decide⟩ =
      normalizeRow ([sampleRaw].get ⟨0, by decide⟩) :=
  ⟨by decide, bad_cell_isolated.2.2.2 "abc" (by decide),
   bad_cell_isolated.2.1 [sampleRaw] 0 (by decide) (by decide)⟩

/-- C8 counterexample: lines 84-86 wrap the SQLite write in no handler, so
when the cache write fails `load_data` raises instead of returning the
in-memory NormalizedTable: on the empty source with a failing writer the
pipeline yields the error, not the table. -/
theorem cache_failure_fatal_cex :
    load_data_with_cache [] (fun _ => Except.error "disk full") =
      Except.error "disk full" ∧
    load_data_with_cache [] (fun _ => Except.error "disk full") ≠
      Except.ok (load_data []) := by
  refine ⟨rfl, fun h => ?_⟩
  exact Except.noConfusion h

/-- C8 amended: a failure of the Cache Writer is fatal to the load — the
error propagates out of `load_data` and the in-memory NormalizedTable is
not returned, so queries cannot be served from it for that run. -/
theorem cache_failure_propagates (raw : List RawRow)
    (w : List Row → Except String Unit) (e : String)
    (h : w (load_data raw) = Except.error e) :
    load_data_with_cache raw w = Except.error e := by
  simp only [load_data_with_cache, h]

/-- C8 amended witness: a writer that always fails makes the whole load
fail. -/
theorem cache_failure_propagates_witness :
    load_data_with_cache [sampleRaw] (fun _ => Except.error "disk full") =
      Except.error "disk full" :=
  cache_failure_propagates [sampleRaw] (fun _ => Except.error "disk full")
    "disk full" rfl

/-- Rows returned by `filtered_df` satisfy the year constraint, in either
display mode. -/
theorem mem_filtered_year (df : List Row) (mode : DisplayType)
    (sel : List String) (y : Int) (r : Row)
    (hr : r ∈ filtered_df df mode sel y) : r.year = some y := by
  cases mode with
  | countries =>
    simp only [filtered_df, List.mem_filter, decide_eq_true_eq] at hr
    exact hr.2.2
  | continents =>
    simp only [filtered_df, List.mem_filter, decide_eq_true_eq] at hr
    exact hr.2.2

/-- C10: the year constraint is applied in both display modes — every row a
query returns has `year = selected year`; a row with an absent year is
never returned by any query; and the year selector `available_years` only
offers years present in some row of the table. -/
theorem year_always_applied :
    (∀ (df : List Row) (mode : DisplayType) (sel : List String) (y : Int)
      (r : Row), r ∈ filtered_df df mode sel y → r.year = some y) ∧
    (∀ (df : List Row) (mode : DisplayType) (sel : List String) (y : Int)
      (r : Row), r.year = none → r ∉ filtered_df df mode sel y) ∧
    (∀ (df : List Row) (y : Int), y ∈ available_years df →
      ∃ r, r ∈ df ∧ r.year = some y) := by
  refine ⟨mem_filtered_year, ?_, ?_⟩
  · intro df mode sel y r hnone hr
    rw [mem_filtered_year df mode sel y r hr] at hnone
    exact Option.noConfusion hnone
  · intro df y hy
    unfold available_years at hy
    have hy2 : y ∈ (df.filterMap (fun r => r.year)).dedup :=
      (List.perm_insertionSort (fun a b => b ≤ a)
        ((df.filterMap (fun r => r.year)).dedup)).mem_iff.mp hy
    rw [List.mem_dedup, List.mem_filterMap] at hy2
    exact hy2

/-- C10 witness: the Kenya-2020 row is returned by the 2020 by-country
query, and the theorem forces its year to be 2020. -/
theorem year_always_applied_witness : sampleRow.year = some 2020 :=
  year_always_applied.1 [sampleRow] DisplayType.countries ["Kenya"] 2020
    sampleRow (by decide)

/-- C9 witness: even with region code "EAS" (East Asia & Pacific), the row
for "New Zealand" is classified "Oceania". -/
theorem new_zealand_is_oceania_witness :
    classifyContinent (some "EAS") (some "New Zealand") = "Oceania" :=
  (new_zealand_is_oceania (some "EAS")).2.1
